import Mathlib

/-!
# L2DB storage engine — verification of the specification claims

Shallow embedding of the Python sources `src/l2db.py` (the L2DB 2.0.0
engine) and `src/l2db2.py` (the `eval_db` header validator of the second
format iteration).  Bytes are modelled as `Nat` (kept below 256 by the
packing functions), Python byte strings as `List Nat`, and Python strings
occurring as keys or type tags by their UTF-8 byte sequences.  Fallible
Python code (struct.pack/unpack errors, raised exceptions) is modelled with
`Option` and `Except`.
-/

deriving instance DecidableEq for Except

namespace L2DB

/-- Python slice index normalisation: negative indices count from the end,
and both bounds are clamped to `[0, len]` (`s[a:b]` never raises). -/
def pyIdx (len : Nat) (i : Int) : Nat :=
  if i < 0 then (max ((len : Int) + i) 0).toNat else min i.toNat len

/-- Python slice `l[a:b]` on a byte string. -/
def pySlice (l : List Nat) (a b : Int) : List Nat :=
  (l.take (pyIdx l.length b)).drop (pyIdx l.length a)

/-- Big-endian base-256 value of a byte string (`struct.unpack` of the
matching unsigned width, with the width implied by the length). -/
def unpackBE (l : List Nat) : Nat :=
  l.foldl (fun a b => a * 256 + b) 0

/-- `struct.pack('>H', n)`: two big-endian bytes; `struct.error` (`none`)
when the value does not fit an unsigned 16-bit integer. -/
def packU16 (n : Nat) : Option (List Nat) :=
  if n < 65536 then some [n / 256, n % 256] else none

/-- `struct.pack('>I', n)` behaviour as a total function: four big-endian
bytes of `n % 2^32`.  The fallible wrapper is `packU32`. -/
def pack32 (n : Nat) : List Nat :=
  [n / 16777216 % 256, n / 65536 % 256, n / 256 % 256, n % 256]

/-- `struct.pack('>I', n)`: `struct.error` (`none`) when `n ≥ 2^32`. -/
def packU32 (n : Nat) : Option (List Nat) :=
  if n < 4294967296 then some (pack32 n) else none

/-- `struct.pack('>Q', n)` behaviour as a total function: eight big-endian
bytes of `n % 2^64`. -/
def pack64 (n : Nat) : List Nat :=
  [n / 72057594037927936 % 256, n / 281474976710656 % 256,
   n / 1099511627776 % 256, n / 4294967296 % 256,
   n / 16777216 % 256, n / 65536 % 256, n / 256 % 256, n % 256]

/-- `struct.pack('>Q', n)`: `struct.error` (`none`) when `n ≥ 2^64`. -/
def packU64 (n : Nat) : Option (List Nat) :=
  if n < 18446744073709551616 then some (pack64 n) else none

/-- `struct.pack('>i', i)`: four big-endian two's-complement bytes;
`struct.error` (`none`) outside the signed 32-bit range. -/
def packI32 (i : Int) : Option (List Nat) :=
  if -2147483648 ≤ i ∧ i < 2147483648 then
    some (pack32 ((i % 4294967296).toNat))
  else none

/-- `struct.unpack` of a signed big-endian integer whose width is the byte
string's length (two's complement decode). -/
def unpackSigned (l : List Nat) : Int :=
  let m := unpackBE l
  if m < 256 ^ l.length / 2 then (m : Int) else (m : Int) - 256 ^ l.length

/-- `struct.unpack('>I', l)[0]`: `none` (struct.error) unless exactly 4 bytes. -/
def unpackU32 (l : List Nat) : Option Nat :=
  if l.length = 4 then some (unpackBE l) else none

/-- `getbit` from `src/l2db.py`: bit `pos` (from the right) of `seq`. -/
def getbit (seq pos : Nat) : Nat :=
  1 &&& (seq >>> pos)

/-- `flag2flag` on a flag-name tuple (`src/l2db.py:268-276`): builds the
flag integer, silently discarding unknown names. -/
def flag2flagInt (flags : List String) : Nat :=
  (if "LOCKED" ∈ flags then 4 else 0) +
  (if "DIRTY" ∈ flags then 2 else 0) +
  (if "X64_INDEXES" ∈ flags then 1 else 0)

/-- `flag2flag` on a flag integer (`src/l2db.py:277-285`): the tuple of set
flag names, in the order LOCKED, DIRTY, X64_INDEXES. -/
def flag2flagTuple (flags : Nat) : List String :=
  (if getbit flags 2 = 1 then ["LOCKED"] else []) ++
  (if getbit flags 1 = 1 then ["DIRTY"] else []) ++
  (if getbit flags 0 = 1 then ["X64_INDEXES"] else [])

/-- `L2DB.__flag` (`src/l2db.py:397-399`): whether flag `name` is set in the
header's flag byte (byte 18). -/
def dbFlag (header : List Nat) (name : String) : Bool :=
  name ∈ flag2flagTuple (header.getD 18 0)

/-- The file magic `struct.pack('>Q', 9821280156134670336)`, i.e.
`b'\x88L2DB\x00\x00\x00'`. -/
def magicBytes : List Nat := pack64 9821280156134670336

/-- `new_header` (`src/l2db.py:291-306`), with the dotted version string
already parsed into its three components (the source splits `spec_ver` on
dots and converts each piece with `int`).  Packs
`'>QHHHiB' + 'B'*45`: magic, three unsigned 16-bit version components,
`index_len` as a SIGNED 32-bit integer, the flag byte, and 45 zero bytes.
`none` models a `struct.error` from an out-of-range field. -/
def new_header (v1 v2 v3 : Nat) (index_len : Int) (flags : Nat) :
    Option (List Nat) := do
  let p1 ← packU16 v1
  let p2 ← packU16 v2
  let p3 ← packU16 v3
  let pil ← packI32 index_len
  let pfl ← if flags < 256 then some [flags] else none
  pure (magicBytes ++ p1 ++ p2 ++ p3 ++ pil ++ pfl ++ List.replicate 45 0)

/-- The result record of `get_headerdata`: magic bytes, the spec-version
string (modelled by its three numeric components), `idx_len`, and the flag
tuple. -/
structure HeaderData where
  magic : List Nat
  spec_ver : Nat × Nat × Nat
  idx_len : Int
  flags : List String
deriving DecidableEq, Repr

/-- `get_headerdata` (`src/l2db.py:308-318`): unpacks the 64-byte header
with `'>QHHHiB' + 'B'*45` (struct.error, modelled `none`, on any other
length), warns — without raising — on a magic mismatch, and returns the
fields.  `idx_len` is decoded as a SIGNED 32-bit integer. -/
def get_headerdata (header : List Nat) : Option HeaderData :=
  if header.length = 64 then
    some { magic := header.take 8
           spec_ver := (unpackBE ((header.drop 8).take 2),
                        unpackBE ((header.drop 10).take 2),
                        unpackBE ((header.drop 12).take 2))
           idx_len := unpackSigned ((header.drop 14).take 4)
           flags := flag2flagTuple (header.getD 18 0) }
  else none

/-- The Python exceptions that the embedded code can raise. `typeError`
covers item assignment on an immutable `bytes` object and `len(None)`;
`structError` is `struct.error` from pack/unpack; `l2dbError` is the base
`L2DBError` (used for the read-only / write-only refusals). -/
inductive PyErr where
  | typeError
  | indexError
  | structError
  | keyError
  | isDirty
  | l2dbError
deriving DecidableEq, Repr

/-- The typed value domain of the engine.  Strings are carried as their
UTF-8 bytes.  `fltTuple b` stands for the 1-tuple that the source's
`bin2num` returns for a float (it forgets the `[0]` subscript, so the raw
IEEE-754 bytes `b` wrapped in a tuple come back instead of a number —
the numeric float itself is never produced and is not modelled).
`nanv` is the `NaN` sentinel `bin2num` returns for an invalid length. -/
inductive Value where
  | raw (b : List Nat)
  | strv (b : List Nat)
  | intv (i : Int)
  | natv (n : Nat)
  | boolv (b : Bool)
  | nullv
  | nanv
  | fltTuple (b : List Nat)
deriving DecidableEq, Repr

/-- UTF-8 bytes of the 3-byte type tags. -/
def tagRaw : List Nat := [114, 97, 119]
def tagStr : List Nat := [115, 116, 114]
def tagInt : List Nat := [105, 110, 116]
def tagUin : List Nat := [117, 105, 110]
def tagFlt : List Nat := [102, 108, 116]
def tagFpn : List Nat := [102, 112, 110]
def tagBol : List Nat := [98, 111, 108]
def tagNul : List Nat := [110, 117, 108]
def tagInv : List Nat := [105, 110, 118]

/-- `get_type` (`src/l2db.py:122-142`): the L2DB type tag of a Python
value.  An `int` is `'int'` when it is at most the signed 64-bit maximum,
`'uin'` otherwise (floats, which always map to `'flt'`, are not part of the
modelled value domain). -/
def get_type (v : Value) : List Nat :=
  match v with
  | .raw _ => tagRaw
  | .strv _ => tagStr
  | .intv n => if n ≤ 9223372036854775807 then tagInt else tagUin
  | .natv n => if (n : Int) ≤ 9223372036854775807 then tagInt else tagUin
  | .boolv _ => tagBol
  | .nullv => tagNul
  | .nanv => tagFlt
  | .fltTuple _ => tagInv

/-- The integer arm of `num2bin` (`src/l2db.py:174-205`).  Unsigned: `b''`
(i.e. `some []`) with a warning for a negative or too-large value, else the
smallest of the `>B`,`>H`,`>I`,`>Q` widths whose threshold the value is
below.  Signed: the `range(-127, 128)` test — note the lower bound — then
the 16-, 32- and 64-bit ranges; past 64 bits the `case` falls through
without a `return`, so Python yields `None`, modelled as Option `none`.
The float arm packs IEEE-754 bytes and is outside the integer value domain
modelled here. -/
def num2bin (n : Int) (unsigned : Bool) : Option (List Nat) :=
  if unsigned then
    if n < 0 then some []
    else if n < 256 then some [(n % 256).toNat]
    else if n < 65536 then (packU16 (n.toNat))
    else if n < 4294967296 then (packU32 (n.toNat))
    else if n < 18446744073709551616 then (packU64 (n.toNat))
    else some []
  else
    if -127 ≤ n ∧ n < 128 then some [((n % 256).toNat)]
    else if -32768 ≤ n ∧ n < 32768 then
      some [((n % 65536).toNat) / 256, ((n % 65536).toNat) % 256]
    else if -2147483648 ≤ n ∧ n < 2147483648 then
      some (pack32 ((n % 4294967296).toNat))
    else if -9223372036854775808 ≤ n ∧ n < 9223372036854775808 then
      some (pack64 ((n % 18446744073709551616).toNat))
    else none

/-- `bin2num` (`src/l2db.py:233-263`).  `'uin'` right-justifies to 8 bytes
and unpacks `>Q` (struct.error for more than 8 bytes); `'int'` picks the
signed width from the byte length and yields `NaN` for any other length;
`'flt'` returns the *tuple* `struct.unpack` produced (lengths 4 and 8) or
`NaN`; any other tag (e.g. `'fpn'`) matches no case, so Python returns
`None`. -/
def bin2num (b : List Nat) (astype : List Nat) : Except PyErr Value :=
  if astype = tagUin then
    if b.length ≤ 8 then .ok (.natv (unpackBE b)) else .error .structError
  else if astype = tagInt then
    if b.length = 1 ∨ b.length = 2 ∨ b.length = 4 ∨ b.length = 8 then
      .ok (.intv (unpackSigned b))
    else .ok .nanv
  else if astype = tagFlt then
    if b.length = 4 ∨ b.length = 8 then .ok (.fltTuple b) else .ok .nanv
  else
    .ok .nullv

/-- `set_flag` (`src/l2db.py:320-338`).  When the named flag is already in
the requested state it returns `False` untouched; otherwise it executes
`self.__db['header'][18] += ...` — item assignment on an immutable Python
`bytes` object — which raises `TypeError` before any state change.  An
operand other than `+`/`-` only warns and returns `False`; an empty flag
name would make `flagname[0]` raise `IndexError`. -/
def set_flag (header : List Nat) (flagname : String) : Except PyErr Bool :=
  match flagname.toList with
  | [] => .error .indexError
  | c :: rest =>
    if c = '+' then
      if dbFlag header (String.mk rest) then .ok false else .error .typeError
    else if c = '-' then
      if dbFlag header (String.mk rest) then .error .typeError else .ok false
    else .ok false

/-- One step of the `get_keyoffset` byte scan (`src/l2db.py:350-360`):
bytes are accumulated into `buf`; when the buffer is longer than
`validx_size + 3` and the current byte is `0x00`, the buffer is parsed as
one entry — name `buf[validx_size+3:-1]`, offsets
`struct.unpack('>II' | '>QQ', buf[:validx_size])` — and reset. -/
def scanIndex (validx_size : Nat) (buf : List Nat) :
    List Nat → List (List Nat × Nat × Nat)
  | [] => []
  | b :: rest =>
    let buf2 := buf ++ [b]
    if validx_size + 3 < buf2.length ∧ b = 0 then
      ((buf2.drop (validx_size + 3)).dropLast,
       if validx_size = 8 then
         (unpackBE (buf2.take 4), unpackBE ((buf2.drop 4).take 4))
       else
         (unpackBE (buf2.take 8), unpackBE ((buf2.drop 8).take 8)))
      :: scanIndex validx_size [] rest
    else scanIndex validx_size buf2 rest

/-- `get_keyoffset` (`src/l2db.py:340-364`), buffered mode:
`validx_size = 16 if X64_INDEXES else 8`, then the byte scan over the index
block; returns — for the first parsed entry whose name matches — the
*unpacked offset pair stored in that entry* (these are offsets into the
value block, although `read`/`write` consume them as index positions), or
`(-1, -1)` when no entry matches. -/
def get_keyoffset (wide : Bool) (index keyname : List Nat) : Int × Int :=
  match (scanIndex (if wide then 16 else 8) [] index).find?
      (fun p => p.1 == keyname) with
  | some p => ((p.2.1 : Int), (p.2.2 : Int))
  | none => (-1, -1)

/-- A buffered (`'f'` not in mode) database session: the header, index and
value byte strings plus the mode characters.  Unbuffered file mode is out
of scope here — every claim concerns buffered sessions. -/
structure Session where
  header : List Nat
  index : List Nat
  values : List Nat
  mode : List Char
deriving DecidableEq, Repr

/-- `L2DB.read` (`src/l2db.py:471-540`), buffered mode.  A set `DIRTY` flag
only prints a warning.  The offsets returned by `get_keyoffset` — which are
the entry's *value-block* offsets — are used to slice the *index* for the
entry and the stored type, exactly as the source does.  The `'bol'` and
`'nul'` arms `return` directly (bypassing the `vtype` conversion at the
end); a malformed stored byte calls `set_flag('+DIRTY')`, whose `TypeError`
propagates.  With a `vtype` argument the result goes through `convert`,
an ellipsis stub that returns `None`. -/
def readOp (s : Session) (key : List Nat) (vtype : Option (List Nat)) :
    Except PyErr Value :=
  if ¬ ('r' ∈ s.mode) then .error .l2dbError
  else
    let wide := dbFlag s.header "X64_INDEXES"
    let esize := if wide then 16 else 8
    let ko := get_keyoffset wide s.index key
    if ko.1 < 0 ∨ ko.2 < 0 then .error .keyError
    else
      let entry := pySlice s.index ko.1 ko.2
      let stored_type :=
        pySlice s.index (ko.2 - (key.length + 1) - 3) (ko.2 - (key.length + 1))
      if (entry.take esize).length ≠ esize then .error .structError
      else
        let v0 := if wide then unpackBE (entry.take 8) else unpackBE (entry.take 4)
        let v1 := if wide then unpackBE ((entry.drop 8).take 8)
                  else unpackBE ((entry.drop 4).take 4)
        let rawvalue := pySlice s.values (v0 : Int) (v1 : Int)
        if stored_type = tagBol then
          match rawvalue with
          | [] => .error .indexError
          | b :: _ =>
            if b = 0 then .ok (.boolv false)
            else if b = 1 then .ok (.boolv true)
            else
              match set_flag s.header "+DIRTY" with
              | .error e => .error e
              | .ok _ => .ok (.boolv true)
        else if stored_type = tagNul then
          match rawvalue with
          | [] => .error .indexError
          | b :: _ =>
            if b = 0 then .ok .nullv
            else
              match set_flag s.header "+DIRTY" with
              | .error e => .error e
              | .ok _ => .ok .nullv
        else
          let valE : Except PyErr Value :=
            if stored_type = tagRaw then .ok (.raw rawvalue)
            else if stored_type = tagStr then .ok (.strv rawvalue)
            else if stored_type = tagInt ∨ stored_type = tagUin ∨
                    stored_type = tagFlt ∨ stored_type = tagFpn then
              bin2num rawvalue stored_type
            else
              match set_flag s.header "+DIRTY" with
              | .error e => .error e
              | .ok _ => .ok (.raw rawvalue)
          match valE with
          | .error e => .error e
          | .ok v =>
            match vtype with
            | some _ => .ok .nullv
            | none => .ok v

/-- `L2DB.write` (`src/l2db.py:542-648`), buffered mode, reduced to the
`(index, values)` pair it produces (it never touches the header — the
"Add headerdata modification!" TODO at line 597 is unimplemented).
Mirrors the source exactly: a dirty database raises `L2DBIsDirty` first;
a missing key gets `keyoffsets = (len(index), len(index)+entrysize)` and a
freshly built entry that is, however, never appended to the index; the
stored type is sliced from the index at the (value-block) key offsets; the
value offsets are unpacked from `entry[:esize]`; bool/None values fall to
the warning branch leaving `valbin = b''`; the in-place branch rebuilds the
value block, and when the value shrank it splices
`index[:64+k0+8] ++ pack(old value_end) ++ index[64+k0+(8|4)+len(valbin):]`
— with the stray `64`s of the source; an encoding larger than the range hits
no branch at all, so index and values come back unchanged. -/
def writeCore (s : Session) (key : List Nat) (value : Value)
    (vtype : Option (List Nat)) : Except PyErr (List Nat × List Nat) :=
  if dbFlag s.header "DIRTY" then .error .isDirty
  else if ¬ ('w' ∈ s.mode) then .error .l2dbError
  else
    let wide := dbFlag s.header "X64_INDEXES"
    let esize := if wide then 16 else 8
    let ko := get_keyoffset wide s.index key
    let build : Except PyErr ((Int × Int) × List Nat) :=
      if ko.1 < 0 ∨ ko.2 < 0 then
        let k0 := s.index.length
        let k1 := s.index.length + (esize + 3) + key.length + 1
        match (if wide then packU64 k0 else packU32 k0),
              (if wide then packU64 k1 else packU32 k1) with
        | some p0, some p1 =>
          .ok (((k0 : Int), (k1 : Int)),
               p0 ++ p1 ++ (vtype.getD (get_type value)) ++ key ++ [0])
        | _, _ => .error .structError
      else .ok (ko, pySlice s.index ko.1 ko.2)
    match build with
    | .error e => .error e
    | .ok (koffs, entry) =>
      let stored_type :=
        pySlice s.index (koffs.2 - (key.length + 1) - 3)
                        (koffs.2 - (key.length + 1))
      if (entry.take esize).length ≠ esize then .error .structError
      else
        let v0 := if wide then unpackBE (entry.take 8) else unpackBE (entry.take 4)
        let v1 := if wide then unpackBE ((entry.drop 8).take 8)
                  else unpackBE ((entry.drop 4).take 4)
        let typeChangeRaises : Bool :=
          match vtype with
          | some t => t != stored_type &&
              (t == tagInt || t == tagUin || t == tagFlt || t == tagFpn ||
               t == tagBol || t == tagStr || t == tagRaw || t == tagNul)
          | none => false
        if typeChangeRaises then .error .typeError
        else
          let valbinO : Option (List Nat) :=
            match value with
            | .raw b => some b
            | .strv b => some b
            | .intv n => num2bin n false
            | .natv n => num2bin n false
            | _ => some []
          match valbinO with
          | none => .error .typeError
          | some valbin =>
            if (valbin.length : Int) ≤ (v1 : Int) - (v0 : Int) then
              let prev_val := pySlice s.values 0 (v0 : Int)
              let aftr_val :=
                pySlice s.values ((v0 : Int) + valbin.length) s.values.length
              let values2 := prev_val ++ valbin ++ aftr_val
              if (valbin.length : Int) < (v1 : Int) - (v0 : Int) then
                let prev_idx := pySlice s.index 0 (64 + koffs.1 + 8)
                let aftr_idx :=
                  pySlice s.index
                    (64 + koffs.1 + (if wide then 8 else 4) + valbin.length)
                    s.index.length
                let packed := if wide then pack64 v1 else pack32 v1
                .ok (prev_idx ++ packed ++ aftr_idx, values2)
              else .ok (s.index, values2)
            else .ok (s.index, s.values)

/-- `L2DB.write` as a session transformer: only the index and value blocks
can change. -/
def writeOp (s : Session) (key : List Nat) (value : Value)
    (vtype : Option (List Nat)) : Except PyErr Session :=
  match writeCore s key value vtype with
  | .error e => .error e
  | .ok (i, v) => .ok { s with index := i, values := v }

/-- `L2DB.cleanup` (`src/l2db.py:733-739`): the repair logic is an ellipsis
stub — only `set_flag('-DIRTY')` runs, and its `TypeError` propagates
whenever the flag actually was set. -/
def cleanupOp (s : Session) : Except PyErr Session :=
  match set_flag s.header "-DIRTY" with
  | .error e => .error e
  | .ok _ => .ok s

/-- `L2DB.dump` (`src/l2db.py:659-662`): the body is an ellipsis stub
(`#TODO: Implement dumping mechanism here!`), so the call returns `None`. -/
def dumpOp (_ : Session) : Option (List (List Nat × Value)) := none

/-- The header `new_header()` builds for a fresh database: spec version
2.0.0, zero index length, no flags. -/
def defaultHeader : List Nat := (new_header 2 0 0 0 0).getD []

/-- `L2DB.open` on a `dict` source (`src/l2db.py:431-440`): a fresh
header/index/values triple, then one `write` per mapping entry in
insertion order. -/
def openFromDict (m : List (List Nat × Value)) : Except PyErr Session :=
  m.foldlM (fun s kv => writeOp s kv.1 kv.2 none)
    { header := defaultHeader, index := [], values := [], mode := ['r', 'w'] }

/-! ## The second-iteration header validator (`src/l2db2.py`) -/

/-- Errors of `src/l2db2.py`: `L2DBSyntaxError` (a `SyntaxError` subclass),
the base `L2DBError` — which is what the version check raises, carrying the
found and expected version in its message — plus struct/index errors. -/
inductive L2Err where
  | syntaxError
  | l2dbError (found expected : Nat)
  | structError
  | indexError
deriving DecidableEq, Repr

/-- The canonical magic, `L2DB.magic` of `src/l2db2.py:160`:
`b'\x88L2DB\x00\x00\x00'`. -/
def magicA : List Nat := [136, 76, 50, 68, 66, 0, 0, 0]

/-- The second magic accepted by `eval_db`: `b'\x88L2020DB'`. -/
def magicB : List Nat := [136, 76, 50, 48, 50, 48, 68, 66]

/-- `L2DB.eval_db` (`src/l2db2.py:175-185`): under a strict session the
first 8 bytes must be one of TWO accepted magics (`b'\x88L2DB\x00\x00\x00'`
or `b'\x88L2020DB'`) or `L2DBSyntaxError` is raised; byte 8 must equal the
implementation version 2 or a plain `L2DBError` is raised; then the
DIRTREE and IDTAB lengths are unpacked as unsigned 32-bit big-endian from
bytes 9..13 and 13..17 (struct.error on a short buffer).  The `and`
short-circuit means a non-strict session skips both checks, including the
`metadata[8]` access. -/
def eval_db (strict : Bool) (database : List Nat) :
    Except L2Err (Nat × Nat) :=
  let metadata := database.take 64
  let lengths : Except L2Err (Nat × Nat) :=
    match unpackU32 (pySlice metadata 9 13), unpackU32 (pySlice metadata 13 17) with
    | some d, some i => .ok (d, i)
    | _, _ => .error .structError
  if strict then
    if metadata.take 8 ≠ magicA ∧ metadata.take 8 ≠ magicB then
      .error .syntaxError
    else if metadata.length ≤ 8 then .error .indexError
    else if metadata.getD 8 0 ≠ 2 then
      .error (.l2dbError (metadata.getD 8 0) 2)
    else lengths
  else lengths

/-! ## The index wire format and the spec-modelled grow operation -/

/-- A decoded index entry: value-block range, 3-byte type tag, key name. -/
structure IdxEntry where
  vstart : Nat
  vend : Nat
  tag : List Nat
  name : List Nat
deriving DecidableEq, Repr

/-- The non-wide wire encoding of one index entry (§3 of the format):
4-byte big-endian start and end offsets, the 3-byte tag, the key name, a
single `0x00` terminator. -/
def encodeEntry (e : IdxEntry) : List Nat :=
  pack32 e.vstart ++ pack32 e.vend ++ e.tag ++ e.name ++ [0]

/-- A packed index block: entries back to back, no padding. -/
def encodeIndex (es : List IdxEntry) : List Nat :=
  match es with
  | [] => []
  | e :: rest => encodeEntry e ++ encodeIndex rest

/-- Well-formedness of an entry for the byte scan: a 3-byte tag, a key name
free of `0x00`, and offsets in unsigned 32-bit range. -/
def WFEntry (e : IdxEntry) : Prop :=
  e.tag.length = 3 ∧ (∀ b ∈ e.name, b ≠ 0) ∧
  e.vstart < 4294967296 ∧ e.vend < 4294967296

instance (e : IdxEntry) : Decidable (WFEntry e) := by
  unfold WFEntry; infer_instance

/-- `l[a:b]` for `0 ≤ a ≤ b`: the value-block bytes of a range. -/
def extractRange (l : List Nat) (a b : Nat) : List Nat :=
  (l.take b).drop a

/-- Modelled from the spec: the grow-and-relocate branch of `L2DB.write` is
missing from `src/l2db.py` (the `if len(valbin) <= ...` block at lines
600-648 has no `else`; the growing-value policy is a pending TODO per the
design notes).  Spec §4.4: "If the new encoding is larger than the existing
range, the new bytes are appended at the end of the value block and the
index entry's offsets are repointed to the new range; the old range becomes
dead space."  The operation acts on the decoded index. -/
def writeGrow (idx : List IdxEntry) (values : List Nat)
    (key valbin : List Nat) : List IdxEntry × List Nat :=
  (idx.map fun e =>
     if e.name = key then
       { e with vstart := values.length, vend := values.length + valbin.length }
     else e,
   values ++ valbin)

/-! ## Concrete sessions used by the claim theorems -/

/-- A clean read-write session holding one well-formed index entry for key
`"k"` with tag `'bol'` and value range `[0, 13)`, whose stored boolean byte
is the invalid `0x02`.  (The range length 13 matches the entry's own index
span, so the source's conflation of value offsets with index offsets still
lands on the real entry.) -/
def badBoolSession : Session :=
  ⟨defaultHeader, [0, 0, 0, 0, 0, 0, 0, 13] ++ tagBol ++ [107] ++ [0],
   [2, 0, 0, 0, 0, 0, 0, 0, 0, 0, 0, 0, 0], ['r', 'w']⟩

/-- A fresh header whose flag byte has the DIRTY bit (value 2) set. -/
def dirtyHeader : List Nat := (new_header 2 0 0 0 2).getD []

/-- An otherwise empty read-write session whose DIRTY flag is set. -/
def dirtySession : Session := ⟨dirtyHeader, [], [], ['r', 'w']⟩

/-- A fresh, empty read-write session (what `open({})` produces). -/
def freshSession : Session := ⟨defaultHeader, [], [], ['r', 'w']⟩

/-- A clean session holding key `"k"` with tag `'str'` and a 10-byte value
`"abcdefghij"` at range `[0, 10)` — the spec's shrink scenario. -/
def shrinkSession : Session :=
  ⟨defaultHeader, [0, 0, 0, 0, 0, 0, 0, 10] ++ tagStr ++ [107] ++ [0],
   [97, 98, 99, 100, 101, 102, 103, 104, 105, 106], ['r', 'w']⟩

/-- The bootstrap mapping `{"hello": "world", "n": 42, "flag": True}`,
keys and string values as UTF-8 bytes, in insertion order. -/
def bootMap : List (List Nat × Value) :=
  [([104, 101, 108, 108, 111], .strv [119, 111, 114, 108, 100]),
   ([110], .intv 42),
   ([102, 108, 97, 103], .boolv true)]

/-- A 64-byte header starting with the alternate magic `b'\x88L2020DB'`
and version byte 2. -/
def altMagicHeader : List Nat := magicB ++ [2] ++ List.replicate 55 0

/-! ## Claim theorems -/

/-- C1: the dirty protocol of the spec does not survive the code's
immutable header.  Reading the `'bol'` key whose stored byte is `0x02`
raises `TypeError` (from `set_flag('+DIRTY')` item-assigning into the
`bytes` header) instead of returning a best-effort `True` with DIRTY set;
a write on an already-dirty session does raise `L2DBIsDirty`; but
`cleanup()` on that dirty session raises `TypeError` (from
`set_flag('-DIRTY')`) instead of clearing the flag. -/
theorem c1_dirty_protocol_eval :
    readOp badBoolSession [107] none = .error .typeError ∧
    writeOp dirtySession [107] (.boolv true) none = .error .isDirty ∧
    cleanupOp dirtySession = .error .typeError := by
  decide

/-- C2: the signed integer `-128` lies in the 1-byte signed range
`[-128, 127]`, yet `num2bin` — whose guard is `range(-127, 128)` — encodes
it in two bytes (`>h`, `0xFF80`), so the chosen width is not the minimal
one the claim states. -/
theorem c2_num2bin_minus128 :
    num2bin (-128) false = some [255, 128] ∧
    (num2bin (-127) false).map List.length = some 1 := by
  decide

/-- C4: overwriting the 10-byte value of key `"k"` with the 3-byte
`"xyz"` keeps the value-block length at 10 and overwrites in place, but —
contrary to the claim — the index entry's `value_end` is left at 10 and the
4 bytes `pack('>I', 10)` are appended to the index block (the source's
`64 + keyoffsets[0] + 8` slice bounds overshoot the 13-byte index, so the
"update" degenerates into an append). -/
theorem c4_shrink_eval :
    writeOp shrinkSession [107] (.strv [120, 121, 122]) none =
      .ok ⟨defaultHeader,
           ([0, 0, 0, 0, 0, 0, 0, 10] ++ tagStr ++ [107] ++ [0]) ++ [0, 0, 0, 10],
           [120, 121, 122, 100, 101, 102, 103, 104, 105, 106], ['r', 'w']⟩ := by
  decide

/-- C5: writing the new key `"k"` with value `"abc"` into a fresh session
stores only `pack('>I', 13)` — four bytes of the constructed entry's end
offset — in the index instead of the entry itself, so the subsequent
`read("k")` raises `L2DBKeyError` rather than returning `"abc"`. -/
theorem c5_insert_eval :
    (writeOp freshSession [107] (.strv [97, 98, 99]) none).map
        (fun s => (s.index, s.values, readOp s [107] none)) =
      .ok ([0, 0, 0, 13], [97, 98, 99], .error .keyError) := by
  decide

/-- C6: bootstrapping a session from
`{"hello": "world", "n": 42, "flag": True}` succeeds, but `dump()` — an
unimplemented ellipsis stub — returns `None` rather than the mapping (the
bootstrap writes had in fact already corrupted the index, cf. C5). -/
theorem c6_bootstrap_dump_eval :
    (openFromDict bootMap).map dumpOp = .ok none := by
  decide

/-- C7 counterexample: `index_len = 2^31` is below `2^32`, hence a valid
header field per the claim, yet `new_header` fails (`struct.error`) because
the source packs `index_len` with the SIGNED format `'>i'`. -/
theorem c7_counterexample :
    new_header 2 0 0 2147483648 0 = none := by
  decide

/-- C8 counterexample: a strict decode of a header whose magic
`b'\x88L2020DB'` differs from the format's magic constant succeeds (the
source accepts a second historical magic) instead of raising the
syntax-category error the claim requires. -/
theorem c8_counterexample :
    eval_db true altMagicHeader = .ok (0, 0) ∧
    altMagicHeader.take 8 ≠ magicA := by
  decide

/-- C9 counterexample: the index block the engine's own `write` produces
for a fresh session and key `"k"` is `pack('>I', 13)` — not a packed
sequence of entries (its `0x00` bytes terminate no key name) — and the
linear scan `get_keyoffset` then fails to return the stored key's entry. -/
theorem c9_counterexample :
    (writeOp freshSession [110] (.strv [97, 98, 99, 100]) none).map
        (fun s => (s.index, get_keyoffset false s.index [110])) =
      .ok ([0, 0, 0, 13], (-1, -1)) := by
  decide

/-- C10 counterexample: not every request to the flag-setting helper
raises `TypeError` — asking to set DIRTY on a header whose DIRTY flag is
already set returns `False` without raising (no item assignment is
attempted). -/
theorem c10_counterexample :
    set_flag dirtyHeader "+DIRTY" = .ok false := by
  decide

/-! ## Shared packing lemmas -/

theorem unpackBE_pack32 (n : Nat) (h : n < 4294967296) :
    unpackBE (pack32 n) = n := by
  simp [unpackBE, pack32]
  omega

theorem unpackSigned_pack32_small (n : Nat) (h : n < 2147483648) :
    unpackSigned (pack32 n) = n := by
  have hbe := unpackBE_pack32 n (by omega)
  unfold unpackSigned
  rw [hbe]
  have hl : (pack32 n).length = 4 := rfl
  rw [hl]
  norm_num
  omega

/-- C7 (amended): the header codec round-trips for version components below
`2^16`, a flag byte, and `index_len` below `2^31` — not `2^32`: the source
packs `index_len` with the signed `'>i'` format, so only the signed 32-bit
range encodes (see the counterexample at `2^31`).  The decoded flags are
the tuple of set flag names, which determines the flag byte again whenever
only the three defined bits are used. -/
theorem c7_header_roundtrip (v1 v2 v3 : Nat) (il : Int) (fl : Nat)
    (h1 : v1 < 65536) (h2 : v2 < 65536) (h3 : v3 < 65536)
    (hil0 : 0 ≤ il) (hil : il < 2147483648) (hfl : fl < 256) :
    (new_header v1 v2 v3 il fl).bind get_headerdata =
      some ⟨magicBytes, (v1, v2, v3), il, flag2flagTuple fl⟩ ∧
    (fl < 8 → flag2flagInt (flag2flagTuple fl) = fl) := by
  constructor
  · have hc : -2147483648 ≤ il ∧ il < 2147483648 := ⟨by omega, hil⟩
    simp only [new_header, packU16, packI32, if_pos h1, if_pos h2, if_pos h3,
      if_pos hc, if_pos hfl, Option.bind_eq_bind, Option.some_bind, Option.pure_def]
    have hmod : il % 4294967296 = il := Int.emod_eq_of_lt hil0 (by omega)
    rw [hmod]
    have hn : il.toNat < 2147483648 := by omega
    have hs : unpackSigned (pack32 il.toNat) = il := by
      rw [unpackSigned_pack32_small il.toNat hn, Int.toNat_of_nonneg hil0]
    simp only [pack32] at hs
    have hmagic : magicBytes = [136, 76, 50, 68, 66, 0, 0, 0] := by decide
    rw [hmagic]
    simp only [pack32, List.cons_append, List.nil_append]
    rw [get_headerdata, if_pos (by rfl : _ = 64)]
    simp [unpackBE, hs, hmagic, Prod.ext_iff]
    refine ⟨by omega, by omega, by omega⟩
  · intro h8
    interval_cases fl <;> decide

/-- Witness for C7: the round trip evaluated at version 3.1.4, index
length 1000 and flag byte 5 (LOCKED and X64_INDEXES set). -/
theorem c7_header_roundtrip_witness :
    (new_header 3 1 4 1000 5).bind get_headerdata =
      some ⟨magicBytes, (3, 1, 4), 1000, flag2flagTuple 5⟩ ∧
    flag2flagInt (flag2flagTuple 5) = 5 :=
  ⟨(c7_header_roundtrip 3 1 4 1000 5 (by norm_num) (by norm_num) (by norm_num)
      (by norm_num) (by norm_num) (by norm_num)).1,
   (c7_header_roundtrip 3 1 4 1000 5 (by norm_num) (by norm_num) (by norm_num)
      (by norm_num) (by norm_num) (by norm_num)).2 (by norm_num)⟩

/-- C8 (amended): under a strict session, `eval_db` raises the
syntax-category `L2DBSyntaxError` only when the first 8 bytes match
NEITHER accepted magic (`b'\x88L2DB\x00\x00\x00'` nor the historical
`b'\x88L2020DB'`); with an accepted magic, a version byte different from
the implementation version 2 raises the plain base `L2DBError` — carrying
the found and expected versions — rather than a dedicated
`VersionMismatch` exception; and `src/l2db.py`'s own header decoder
`get_headerdata` never raises on a magic mismatch at all (it only warns
and still returns the decoded fields). -/
theorem c8_strict_validation (db h64 : List Nat) (hlen : h64.length = 64) :
    ((db.take 64).take 8 ≠ magicA → (db.take 64).take 8 ≠ magicB →
       eval_db true db = .error .syntaxError) ∧
    ((db.take 64).take 8 = magicA ∨ (db.take 64).take 8 = magicB →
       8 < (db.take 64).length → (db.take 64).getD 8 0 ≠ 2 →
       eval_db true db = .error (.l2dbError ((db.take 64).getD 8 0) 2)) ∧
    (get_headerdata h64).isSome := by
  refine ⟨?_, ?_, ?_⟩
  · intro ha hb
    simp [eval_db, ha, hb]
  · intro hm h8 hv
    have hnot : ¬((db.take 64).take 8 ≠ magicA ∧ (db.take 64).take 8 ≠ magicB) := by
      tauto
    have h8b : ¬(db.length ≤ 8) := by
      simp [List.length_take] at h8
      omega
    have hv2 : ¬(db[8]?.getD 0 = 2) := by
      simpa using hv
    simp [eval_db, hnot, h8b, hv2]
  · simp [get_headerdata, hlen]

/-- Witness for C8: a strict decode of 64 `0x01` bytes (magic matches
neither constant) raises `L2DBSyntaxError`. -/
theorem c8_strict_validation_witness :
    eval_db true (List.replicate 64 1) = .error .syntaxError :=
  (c8_strict_validation (List.replicate 64 1) (List.replicate 64 0)
      (by simp)).1 (by decide) (by decide)

/-- C3 (spec-modelled): grow-and-relocate.  When the new encoding is
strictly larger than the existing range of the entry for `k`, the new
bytes are appended at the end of the value block, the entry's offsets are
repointed to the appended range (whose bytes read back as the new
encoding), every other entry is unchanged — offsets and stored value
bytes alike — and the old range's bytes stay in place as dead space. -/
theorem c3_grow_relocate (idx : List IdxEntry) (values key valbin : List Nat)
    (e : IdxEntry) (he : e ∈ idx) (hname : e.name = key)
    (hgrow : e.vend - e.vstart < valbin.length)
    (hranges : ∀ e2 ∈ idx, e2.vend ≤ values.length) :
    (writeGrow idx values key valbin).2 = values ++ valbin ∧
    ({ e with vstart := values.length,
              vend := values.length + valbin.length } : IdxEntry) ∈
      (writeGrow idx values key valbin).1 ∧
    extractRange (writeGrow idx values key valbin).2
        values.length (values.length + valbin.length) = valbin ∧
    (∀ e2 ∈ idx, e2.name ≠ key →
       e2 ∈ (writeGrow idx values key valbin).1 ∧
       extractRange (writeGrow idx values key valbin).2 e2.vstart e2.vend =
         extractRange values e2.vstart e2.vend) ∧
    (writeGrow idx values key valbin).2.take values.length = values := by
  refine ⟨rfl, ?_, ?_, ?_, ?_⟩
  · refine List.mem_map.mpr ⟨e, he, ?_⟩
    simp [hname]
  · show ((values ++ valbin).take (values.length + valbin.length)).drop values.length = valbin
    rw [List.take_append, List.take_length, List.drop_left]
  · intro e2 he2 hne
    refine ⟨List.mem_map.mpr ⟨e2, he2, ?_⟩, ?_⟩
    · simp [hne]
    · show ((values ++ valbin).take e2.vend).drop e2.vstart =
        (values.take e2.vend).drop e2.vstart
      rw [List.take_append_of_le_length (hranges e2 he2)]
  · exact List.take_left values valbin

/-- Witness for C3: growing the 3-byte value of key `"k"` to 4 bytes
appends the 4 new bytes to the 3-byte value block. -/
theorem c3_grow_relocate_witness :
    (writeGrow [⟨0, 3, tagStr, [107]⟩] [97, 98, 99] [107] [1, 2, 3, 4]).2 =
      [97, 98, 99] ++ [1, 2, 3, 4] :=
  (c3_grow_relocate [⟨0, 3, tagStr, [107]⟩] [97, 98, 99] [107] [1, 2, 3, 4]
    ⟨0, 3, tagStr, [107]⟩ (by decide) rfl (by decide) (by decide)).1

/-- C10 (amended): the header flag byte is indeed preserved by every
operation, but not because every helper call raises — `set_flag` raises
`TypeError` exactly when it attempts to change the byte (its item
assignment hits the immutable `bytes` header), while a request whose flag
is already in the desired state returns `False` without raising.  Either
way it never succeeds in flipping a flag, and `write`/`cleanup` return the
header byte-for-byte as it was decoded at open time. -/
theorem c10_flag_byte_preserved (s : Session) (k : List Nat) (v : Value)
    (vt : Option (List Nat)) :
    (∀ f, set_flag s.header f ≠ .ok true) ∧
    (∀ s2, writeOp s k v vt = .ok s2 → s2.header = s.header) ∧
    (∀ s2, cleanupOp s = .ok s2 → s2.header = s.header) ∧
    (dbFlag s.header "DIRTY" = false →
       set_flag s.header "+DIRTY" = .error .typeError) ∧
    (dbFlag s.header "DIRTY" = true →
       set_flag s.header "-DIRTY" = .error .typeError) := by
  refine ⟨?_, ?_, ?_, ?_, ?_⟩
  · intro f
    cases hl : f.data with
    | nil => simp [set_flag, String.toList, hl]
    | cons c rest =>
      simp only [set_flag, String.toList, hl]
      split_ifs <;> simp
  · intro s2 h2
    unfold writeOp at h2
    cases hw : writeCore s k v vt with
    | error e => rw [hw] at h2; cases h2
    | ok p =>
      rw [hw] at h2
      obtain ⟨i, vv⟩ := p
      simp at h2
      rw [← h2]
  · intro s2 h2
    unfold cleanupOp at h2
    cases hsf : set_flag s.header "-DIRTY" with
    | error e => rw [hsf] at h2; cases h2
    | ok b =>
      rw [hsf] at h2
      simp at h2
      rw [← h2]
  · intro hd
    show (if dbFlag s.header "DIRTY" then (Except.ok false : Except PyErr Bool)
          else .error .typeError) = .error .typeError
    rw [hd]
    simp
  · intro hd
    show (if dbFlag s.header "DIRTY" then (Except.error PyErr.typeError : Except PyErr Bool)
          else .ok false) = .error .typeError
    rw [hd]
    simp

/-- Witness for C10: on a fresh session's clean header, an attempt to set
the DIRTY flag raises `TypeError`. -/
theorem c10_flag_byte_preserved_witness :
    set_flag freshSession.header "+DIRTY" = .error .typeError :=
  (c10_flag_byte_preserved freshSession [107] (.strv [97]) none).2.2.2.1
    (by decide)

/-! ## Scan-correctness lemmas for the index byte scan -/

theorem length_pack32 (n : Nat) : (pack32 n).length = 4 := rfl

/-- Scanning a chunk that keeps the buffer within the `validx_size + 3`
guard never triggers entry parsing, whatever the bytes are — this is why
zero bytes inside the fixed-width offset fields and the tag are harmless. -/
theorem scanIndex_chunk_short (c : List Nat) :
    ∀ (rest buf : List Nat), buf.length + c.length ≤ 11 →
      scanIndex 8 buf (c ++ rest) = scanIndex 8 (buf ++ c) rest := by
  induction c with
  | nil =>
    intro rest buf h
    simp
  | cons b c ih =>
    intro rest buf h
    have hlen : (buf ++ [b]).length ≤ 11 := by
      simp at h ⊢
      omega
    rw [List.cons_append, scanIndex, if_neg (by omega)]
    rw [ih rest (buf ++ [b]) (by simp at h ⊢; omega)]
    congr 1
    simp

/-- Scanning a chunk free of `0x00` — a key name — never triggers entry
parsing either. -/
theorem scanIndex_chunk_name (c : List Nat) :
    ∀ (rest buf : List Nat), (∀ x ∈ c, x ≠ 0) →
      scanIndex 8 buf (c ++ rest) = scanIndex 8 (buf ++ c) rest := by
  induction c with
  | nil =>
    intro rest buf h
    simp
  | cons b c ih =>
    intro rest buf h
    have hb : b ≠ 0 := h b (by simp)
    rw [List.cons_append, scanIndex, if_neg (fun hc => hb hc.2)]
    rw [ih rest (buf ++ [b]) (fun x hx => h x (by simp [hx]))]
    congr 1
    simp

/-- The scan consumes exactly one well-formed encoded entry and emits its
name and unpacked offsets. -/
theorem scanIndex_entry (e : IdxEntry) (rest : List Nat) (hwf : WFEntry e) :
    scanIndex 8 [] (encodeEntry e ++ rest) =
      (e.name, e.vstart, e.vend) :: scanIndex 8 [] rest := by
  obtain ⟨htag, hname, hs, he⟩ := hwf
  have h11 : (pack32 e.vstart ++ pack32 e.vend ++ e.tag).length = 11 := by
    simp [length_pack32, htag]
  have hsplit : encodeEntry e ++ rest =
      (pack32 e.vstart ++ pack32 e.vend ++ e.tag) ++ (e.name ++ ([0] ++ rest)) := by
    simp [encodeEntry, List.append_assoc]
  rw [hsplit,
    scanIndex_chunk_short _ _ [] (by rw [List.length_nil, h11]),
    List.nil_append,
    scanIndex_chunk_name e.name _ _ hname,
    show ([0] ++ rest : List Nat) = 0 :: rest from rfl,
    scanIndex]
  rw [if_pos ?hcond]
  case hcond =>
    refine ⟨?_, rfl⟩
    simp [List.length_append, length_pack32, htag]
    omega
  rw [if_pos (rfl : (8 : Nat) = 8)]
  congr 1
  simp only [Prod.mk.injEq]
  refine ⟨?_, ?_, ?_⟩
  · rw [show (((pack32 e.vstart ++ pack32 e.vend ++ e.tag) ++ e.name) ++ [0] : List Nat)
        = (pack32 e.vstart ++ pack32 e.vend ++ e.tag) ++ (e.name ++ [0]) from by
          simp [List.append_assoc]]
    rw [show (8 + 3 : Nat) = 11 from rfl, List.drop_left' h11, List.dropLast_concat]
  · rw [show (((pack32 e.vstart ++ pack32 e.vend ++ e.tag) ++ e.name) ++ [0] : List Nat)
        = pack32 e.vstart ++ (pack32 e.vend ++ (e.tag ++ (e.name ++ [0]))) from by
          simp [List.append_assoc]]
    rw [List.take_left' (length_pack32 _), unpackBE_pack32 _ hs]
  · rw [show (((pack32 e.vstart ++ pack32 e.vend ++ e.tag) ++ e.name) ++ [0] : List Nat)
        = pack32 e.vstart ++ (pack32 e.vend ++ (e.tag ++ (e.name ++ [0]))) from by
          simp [List.append_assoc]]
    rw [List.drop_left' (length_pack32 _), List.take_left' (length_pack32 _),
      unpackBE_pack32 _ he]

/-- The scan re-derives every entry of a packed well-formed index block. -/
theorem scanIndex_encodeIndex (es : List IdxEntry) (h : ∀ e ∈ es, WFEntry e) :
    scanIndex 8 [] (encodeIndex es) =
      es.map (fun e => (e.name, e.vstart, e.vend)) := by
  induction es with
  | nil => rfl
  | cons e es ih =>
    rw [show encodeIndex (e :: es) = encodeEntry e ++ encodeIndex es from rfl]
    rw [scanIndex_entry e _ (h e (by simp))]
    rw [ih (fun x hx => h x (by simp [hx]))]
    rfl

/-- C9 (amended): for non-wide index blocks that are back-to-back packed
well-formed entries (3-byte tag, `0x00`-free key names, 32-bit offsets),
the linear byte scan unambiguously re-derives every entry — `0x00` bytes DO
occur inside the fixed-width offset fields (e.g. any offset below `2^24`),
but the scan's `len(buf) > validx_size + 3` guard prevents them from being
taken as terminators — and `get_keyoffset` returns the first entry carrying
the queried key, or `(-1, -1)` for a key that was never stored.  The
engine's own `write`, however, does not produce such blocks (see the
counterexample). -/
theorem c9_scan_correct (es : List IdxEntry) (hwf : ∀ e ∈ es, WFEntry e)
    (key : List Nat) :
    get_keyoffset false (encodeIndex es) key =
      match es.find? (fun e => e.name == key) with
      | some e => ((e.vstart : Int), (e.vend : Int))
      | none => (-1, -1) := by
  unfold get_keyoffset
  rw [show (if false = true then 16 else 8) = 8 from rfl]
  rw [scanIndex_encodeIndex es hwf, List.find?_map]
  show (match Option.map (fun e => (e.name, e.vstart, e.vend))
      (es.find? (fun e => e.name == key)) with
    | some p => ((p.2.1 : Int), (p.2.2 : Int))
    | none => (-1, -1)) =
    match es.find? (fun e => e.name == key) with
    | some e => ((e.vstart : Int), (e.vend : Int))
    | none => (-1, -1)
  cases hf : es.find? (fun e => e.name == key) with
  | none => rfl
  | some e => rfl

/-- Witness for C9: on the packed two-entry block holding keys `"k"` and
`"n2"`, the scan returns the second entry's stored offsets. -/
theorem c9_scan_correct_witness :
    get_keyoffset false
      (encodeIndex [⟨0, 13, tagBol, [107]⟩, ⟨13, 20, tagStr, [110, 50]⟩])
      [110, 50] = (13, 20) := by
  rw [c9_scan_correct [⟨0, 13, tagBol, [107]⟩, ⟨13, 20, tagStr, [110, 50]⟩]
    (by decide) [110, 50]]
  decide

end L2DB
